import Mathlib

/-!
Shallow embedding of the AUTOCEPNR Latam auto-filler core:
`src/core/rules_engine.py`, `src/core/sabre_screen.py`, `src/core/latam_form.py`
and `src/automation/form_filler.py` of `SITE/AUTOCEPNR_Project`.

Text is modelled as `List Char`; the Python string primitives the code uses
(`upper`, `replace`, `split`, substring search, the `re` patterns it hard-codes)
are embedded on the ASCII fragment the program manipulates.  External effects
(browser fill/submit collaborators, OCR output, the clock year read by
`datetime.now().year`) appear as explicit parameters.

Note: the repository file `rules_engine.py` contains literal git merge-conflict
markers with two variants of the class.  The claims cite the first
(pre-`=======`) variant for every symbol, and the repository's own
`test_system.py` pins that variant's behaviour; it is the one embedded as the
primary definitions below.  The second variant's two differing helpers are also
embedded (suffix `_alt`) for reference.
-/

namespace Autocepnr

/-- ASCII lowercase letter `a`-`z`. -/
def isLowerAscii (c : Char) : Bool := decide (97 ≤ c.toNat ∧ c.toNat ≤ 122)

/-- ASCII uppercase letter `A`-`Z`. -/
def isUpperAscii (c : Char) : Bool := decide (65 ≤ c.toNat ∧ c.toNat ≤ 90)

/-- ASCII digit `0`-`9`. -/
def isDigitAscii (c : Char) : Bool := decide (48 ≤ c.toNat ∧ c.toNat ≤ 57)

/-- The character class `[A-Z0-9]` of `validate_pnr_format` (no `re.IGNORECASE`). -/
def isUpperAlnum (c : Char) : Bool := isUpperAscii c || isDigitAscii c

/-- The class `[A-Z0-9]` under `re.IGNORECASE` (it then also matches `a-z`). -/
def isAlnumCI (c : Char) : Bool := isUpperAscii c || isLowerAscii c || isDigitAscii c

/-- Python regex `\s` on the ASCII fragment. -/
def isWs (c : Char) : Bool :=
  c = ' ' || c = '\t' || c = '\n' || c = '\x0d' || c = '\x0b' || c = '\x0c'

/-- Python `str.upper` on one character (ASCII fragment). -/
def upperChar (c : Char) : Char :=
  if isLowerAscii c then Char.ofNat (c.toNat - 32) else c

/-- Python `str.upper` (ASCII fragment). -/
def pyUpper (s : List Char) : List Char := s.map upperChar

/-- Case-insensitive character equality, as produced by `re.IGNORECASE`. -/
def eqCI (a b : Char) : Bool := upperChar a == upperChar b

/-- Case-insensitive literal prefix test: if `s` starts with `pat` (ignoring
case), return the rest of `s`. -/
def dropLitCI : List Char → List Char → Option (List Char)
  | [], s => some s
  | _ :: _, [] => none
  | p :: ps, c :: cs => if eqCI p c then dropLitCI ps cs else none

/-- Python `pat in s` substring containment (case-sensitive). -/
def containsSub (pat : List Char) : List Char → Bool
  | [] => pat.isEmpty
  | c :: rest => pat.isPrefixOf (c :: rest) || containsSub pat rest

/-- `re.search` over every start position of the text. -/
def reSearch (p : List Char → Bool) : List Char → Bool
  | [] => p []
  | c :: rest => p (c :: rest) || reSearch p rest

/-- Worker for `pyReplaceDel`.  `fuel` only bounds the recursion depth so the
definition is structural (hence kernel-evaluable): every step consumes at
least one character, so `s.length` fuel is always enough. -/
def pyReplaceDelFuel (pat : List Char) : Nat → List Char → List Char
  | 0, s => s
  | _ + 1, [] => []
  | fuel + 1, c :: rest =>
    if pat ≠ [] ∧ pat.isPrefixOf (c :: rest) then
      pyReplaceDelFuel pat fuel ((c :: rest).drop pat.length)
    else
      c :: pyReplaceDelFuel pat fuel rest

/-- Python `str.replace(pat, '')` for a non-empty `pat`: left-to-right,
non-overlapping removal of every occurrence (an empty `pat` is left untouched;
the source only ever passes non-empty tokens). -/
def pyReplaceDel (pat s : List Char) : List Char := pyReplaceDelFuel pat s.length s

/-- Worker for `pySplitWs`: `acc` holds the current token, reversed. -/
def splitWsAux : List Char → List Char → List (List Char)
  | [], acc => if acc.isEmpty then [] else [acc.reverse]
  | c :: rest, acc =>
    if isWs c then
      if acc.isEmpty then splitWsAux rest []
      else acc.reverse :: splitWsAux rest []
    else splitWsAux rest (c :: acc)

/-- Python `str.split()` with no argument: split on whitespace runs, dropping
empty tokens. -/
def pySplitWs (s : List Char) : List (List Char) := splitWsAux s []

/-- Python `str.split(sep)` for a one-character separator: empty tokens are
kept (`''.split(sep) == ['']`). -/
def pySplitOn (sep : Char) : List Char → List (List Char)
  | [] => [[]]
  | c :: rest =>
    if c = sep then [] :: pySplitOn sep rest
    else
      match pySplitOn sep rest with
      | t :: ts => (c :: t) :: ts
      | [] => [[c]]

/-- `' '.join(tokens)`. -/
def joinWithSpace (ts : List (List Char)) : List Char := List.intercalate [' '] ts

/-- Worker for `dedupKeepFirst`; `fuel` only makes the recursion structural,
`l.length` is always enough since `filter` never lengthens the list. -/
def dedupKeepFirstFuel : Nat → List (List Char) → List (List Char)
  | 0, l => l
  | _ + 1, [] => []
  | fuel + 1, x :: rest =>
    x :: dedupKeepFirstFuel fuel (rest.filter (fun y => y ≠ x))

/-- `list(dict.fromkeys(parts))`: remove duplicates, keeping the first
occurrence of each token in order. -/
def dedupKeepFirst (l : List (List Char)) : List (List Char) :=
  dedupKeepFirstFuel l.length l

/-- Length of the longest common prefix of two character lists. -/
def commonPrefixLen : List Char → List Char → Nat
  | a :: as, b :: bs => if a = b then commonPrefixLen as bs + 1 else 0
  | _, _ => 0

/-- `difflib.SequenceMatcher.find_longest_match` over whole sequences, with no
junk (the inputs here are far below the 200-character autojunk threshold):
the longest common substring, ties broken by the earliest start in `a`, then
the earliest start in `b`.  Returns `(i, j, size)`. -/
def findLongestMatch (a b : List Char) : Nat × Nat × Nat :=
  (List.range a.length).foldl
    (fun best i =>
      (List.range b.length).foldl
        (fun best j =>
          let k := commonPrefixLen (a.drop i) (b.drop j)
          if k > best.2.2 then (i, j, k) else best)
        best)
    (0, 0, 0)

/-- Total size of all matching blocks of `SequenceMatcher.get_matching_blocks`:
recursively take the longest match and recurse on both sides.  `fuel` bounds
the recursion depth; `a.length + b.length + 1` always suffices because each
level removes at least one character from each side of the split. -/
def matchingTotalFuel : Nat → List Char → List Char → Nat
  | 0, _, _ => 0
  | fuel + 1, a, b =>
    let m := findLongestMatch a b
    if m.2.2 = 0 then 0
    else
      matchingTotalFuel fuel (a.take m.1) (b.take m.2.1) + m.2.2 +
        matchingTotalFuel fuel (a.drop (m.1 + m.2.2)) (b.drop (m.2.1 + m.2.2))

/-- `sum(block.size for block in SequenceMatcher(None, a, b).get_matching_blocks())`. -/
def matchingTotal (a b : List Char) : Nat :=
  matchingTotalFuel (a.length + b.length + 1) a b

/-- `SequenceMatcher(None, a, b).ratio() > 0.70`, decided exactly on rationals:
`2*M/T > 7/10  ⟺  20*M > 7*T` (and `ratio` of two empty strings is `1.0`). -/
def smRatioGt70 (a b : List Char) : Bool :=
  let t := a.length + b.length
  if t = 0 then true else decide (20 * matchingTotal a b > 7 * t)

/-- `ValidationResult` dataclass of `rules_engine.py`. -/
structure ValidationResult where
  is_valid : Bool
  error_message : Option (List Char) := none
  suggested_action : Option (List Char) := none
deriving DecidableEq

namespace RulesEngine

/-- `RulesEngine._validate_pic_authorization` (rules_engine.py 75-79). -/
def _validate_pic_authorization (auth_code : List Char) : Bool :=
  ["PIC_S23".toList, "PIC_S24".toList, "PIC_S25".toList].contains auth_code

/-- `RulesEngine.validate_estouro_classe` (rules_engine.py 43-73).  The two
arguments are `extracted_data.get('classe', '')` and
`extracted_data.get('auth_code', '')`. -/
def validate_estouro_classe (classe auth : List Char) : ValidationResult :=
  let class_original := pyUpper classe
  let auth_code := pyUpper auth
  if ¬ (["Q".toList, "S".toList, "Y".toList].contains class_original) then
    { is_valid := false
      error_message := some ("Classe ".toList ++ class_original ++
        " não é elegível para estouro de classe".toList)
      suggested_action := some ("Verificar classe original da reserva".toList) }
  else if ¬ _validate_pic_authorization auth_code then
    { is_valid := false
      error_message := some ("Código de autorização ".toList ++ auth_code ++
        " não permite estouro de classe".toList)
      suggested_action := some ("Verificar autorização PIC no Sabre".toList) }
  else
    { is_valid := true }

/-- `RulesEngine.validate_pnr_format` (rules_engine.py 81-97): length test,
then `re.match(r'^[A-Z0-9]{6}$', pnr)` with no `IGNORECASE` flag. -/
def validate_pnr_format (pnr : List Char) : ValidationResult :=
  if pnr.isEmpty || pnr.length ≠ 6 then
    { is_valid := false
      error_message := some ("PNR inválido: ".toList ++ pnr)
      suggested_action :=
        some ("Verificar formato do PNR (6 caracteres alfanuméricos)".toList) }
  else if ¬ pnr.all isUpperAlnum then
    { is_valid := false
      error_message := some ("PNR contém caracteres inválidos: ".toList ++ pnr)
      suggested_action :=
        some ("PNR deve conter apenas letras maiúsculas e números".toList) }
  else
    { is_valid := true }

/-- `RulesEngine.validate_flight_status` (rules_engine.py 99-110). -/
def validate_flight_status (status : List Char) : ValidationResult :=
  if ¬ (["HK".toList, "SA".toList].contains (pyUpper status)) then
    { is_valid := false
      error_message := some ("Status de voo ".toList ++ status ++
        " não permite estouro de classe".toList)
      suggested_action := some ("Apenas status HK ou SA são permitidos".toList) }
  else
    { is_valid := true }

/-- The fixed 12-entry month table of `validate_date_format`. -/
def month_map : List (List Char × List Char) :=
  [("JAN".toList, "01".toList), ("FEV".toList, "02".toList),
   ("MAR".toList, "03".toList), ("ABR".toList, "04".toList),
   ("MAI".toList, "05".toList), ("JUN".toList, "06".toList),
   ("JUL".toList, "07".toList), ("AGO".toList, "08".toList),
   ("SET".toList, "09".toList), ("OUT".toList, "10".toList),
   ("NOV".toList, "11".toList), ("DEZ".toList, "12".toList)]

/-- `date_str[:2].isdigit()` on the ASCII fragment. -/
def pyIsdigit (l : List Char) : Bool := !l.isEmpty && l.all isDigitAscii

/-- `RulesEngine.validate_date_format` (rules_engine.py 112-146).  The source
reads `datetime.now().year`; that ambient clock year is the explicit first
parameter here.  Returns the `(is_valid, formatted_date_or_error)` pair. -/
def validate_date_format (year : Nat) (date_str : List Char) : Bool × List Char :=
  if date_str.length ≠ 5 || !pyIsdigit (date_str.take 2) then
    (false, "Formato de data inválido".toList)
  else
    let day := date_str.take 2
    let month_abbr := pyUpper (date_str.drop 2)
    match month_map.lookup month_abbr with
    | none => (false, "Mês inválido: ".toList ++ month_abbr)
    | some month =>
      (true, day ++ "/".toList ++ month ++ "/".toList ++ (toString year).toList)

/-- `RulesEngine.validate_carrier_code` (rules_engine.py 148-158). -/
def validate_carrier_code (carrier : List Char) : ValidationResult :=
  if ¬ (["LA".toList, "LP".toList, "4C".toList, "JJ".toList].contains
      (pyUpper carrier)) then
    { is_valid := false
      error_message := some ("Carrier ".toList ++ carrier ++ " não mapeado".toList)
      suggested_action :=
        some ("Carrier deve ser um dos: LA, LP, 4C, JJ".toList) }
  else
    { is_valid := true }

/-- `RulesEngine._normalize_name` (rules_engine.py 205-213): upper-case, then
`str.replace(title, '')` for each of the six tokens in order (plain substring
replacement, not token-wise), then collapse whitespace. -/
def _normalize_name (name : List Char) : List Char :=
  let titles := ["MS".toList, "MR".toList, "MSTR".toList, "JR".toList,
                 "NETO".toList, "FILHO".toList]
  let name_upper := titles.foldl (fun acc t => pyReplaceDel t acc) (pyUpper name)
  joinWithSpace (pySplitWs name_upper)

/-- `RulesEngine._is_orthographic_correction` (rules_engine.py 215-227, the
variant the claims cite): `SequenceMatcher(None, old, new).ratio() > 0.70`. -/
def _is_orthographic_correction (old_name new_name : List Char) : Bool :=
  smRatioGt70 old_name new_name

/-- One iteration of the separator loop of `_is_inverted_names`
(rules_engine.py 229-242). -/
def invertedSepCheck (sep : Char) (old_name new_name : List Char) : Bool :=
  if old_name.contains sep || new_name.contains sep then
    let old_parts := if old_name.contains sep then pySplitOn sep old_name
                     else [old_name]
    let new_parts := if new_name.contains sep then pySplitOn sep new_name
                     else [new_name]
    decide (old_parts.length = new_parts.length) &&
      decide (old_parts.length > 1) && decide (old_parts = new_parts.reverse)
  else false

/-- `RulesEngine._is_inverted_names` (rules_engine.py 229-242, the variant the
claims cite): try the separators `' '` then `'/'`; succeed if either split
gives equal token counts (at least 2) with one sequence the reverse of the
other. -/
def _is_inverted_names (old_name new_name : List Char) : Bool :=
  invertedSepCheck ' ' old_name new_name || invertedSepCheck '/' old_name new_name

/-- `RulesEngine._is_addition_correction` (rules_engine.py 244-251): token sets
after mapping `'/'` to `' '`; every old token must appear among the new ones
and the new set must be strictly larger. -/
def _is_addition_correction (old_name new_name : List Char) : Bool :=
  let old_parts := dedupKeepFirst (pySplitWs (old_name.map (fun c => if c = '/' then ' ' else c)))
  let new_parts := dedupKeepFirst (pySplitWs (new_name.map (fun c => if c = '/' then ' ' else c)))
  old_parts.all (fun t => new_parts.contains t) &&
    decide (new_parts.length > old_parts.length)

/-- `RulesEngine._is_duplication_correction` (rules_engine.py 253-259):
`new_parts == list(dict.fromkeys(old_parts))`. -/
def _is_duplication_correction (old_name new_name : List Char) : Bool :=
  decide (pySplitWs new_name = dedupKeepFirst (pySplitWs old_name))

/-- `RulesEngine._is_agname_correction` (rules_engine.py 261-268): substring
presence of a generational suffix differs between the two names. -/
def _is_agname_correction (old_name new_name : List Char) : Bool :=
  let agnames := ["JR".toList, "NETO".toList, "FILHO".toList, "SR".toList]
  let old_has := agnames.any (fun a => containsSub a (pyUpper old_name))
  let new_has := agnames.any (fun a => containsSub a (pyUpper new_name))
  old_has != new_has

/-- `RulesEngine.validate_name_correction` (rules_engine.py 167-203): normalize
both names, then try the five heuristics in order; reject only if none fires. -/
def validate_name_correction (old_name new_name : List Char) : ValidationResult :=
  let old_clean := _normalize_name old_name
  let new_clean := _normalize_name new_name
  if old_clean = new_clean then { is_valid := true }
  else if _is_orthographic_correction old_clean new_clean then { is_valid := true }
  else if _is_inverted_names old_clean new_clean then { is_valid := true }
  else if _is_addition_correction old_clean new_clean then { is_valid := true }
  else if _is_duplication_correction old_clean new_clean then { is_valid := true }
  else if _is_agname_correction old_clean new_clean then { is_valid := true }
  else
    { is_valid := false
      error_message :=
        some ("Correção de nome requer documentação comprobatória".toList)
      suggested_action :=
        some ("Anexar documentação para mudança legal (casamento, divórcio, etc.)".toList) }

/-- The second conflicted variant of `_is_orthographic_correction`
(rules_engine.py 483-500): positional character differences over the padded
strings, capped at 3.  Kept for reference; the claims cite the first variant. -/
def _is_orthographic_correction_alt (old_name new_name : List Char) : Bool :=
  let max_len := max old_name.length new_name.length
  let old_padded := old_name ++ List.replicate (max_len - old_name.length) ' '
  let new_padded := new_name ++ List.replicate (max_len - new_name.length) ' '
  decide (((old_padded.zip new_padded).filter (fun p => p.1 ≠ p.2)).length ≤ 3)

/-- The second conflicted variant of `_is_inverted_names`
(rules_engine.py 502-511): whitespace split only, no slash handling.  Kept for
reference; the claims cite the first variant, and the repository's own
`test_system.py` (line 286) pins the first variant's behaviour. -/
def _is_inverted_names_alt (old_name new_name : List Char) : Bool :=
  let old_parts := pySplitWs old_name
  let new_parts := pySplitWs new_name
  decide (old_parts.length = new_parts.length) &&
    decide (old_parts = new_parts.reverse)

end RulesEngine

namespace SabreScreen

/-- Anchor 1 matcher at one position: `Reserva\s*-\s*[A-Z0-9]{6}` under
`re.IGNORECASE` (sabre_screen.py 103).  `\s*` and the following literal are
disjoint character sets, so greedy whitespace consumption is exact. -/
def indReservaAt (s : List Char) : Bool :=
  match dropLitCI ("Reserva".toList) s with
  | none => false
  | some r =>
    match r.dropWhile isWs with
    | '-' :: r2 =>
      let r3 := r2.dropWhile isWs
      decide (6 ≤ r3.length) && (r3.take 6).all isAlnumCI
    | _ => false

/-- Anchor 3 matcher at one position: `Voo\s*\(CIA\)` under `re.IGNORECASE`. -/
def indVooCIAAt (s : List Char) : Bool :=
  match dropLitCI ("Voo".toList) s with
  | none => false
  | some r =>
    match r.dropWhile isWs with
    | '(' :: r2 =>
      match dropLitCI ("CIA".toList) r2 with
      | some (')' :: _) => true
      | _ => false
    | _ => false

/-- Anchor 4 matcher at one position: `Voo\s*\(Numero\)` under `re.IGNORECASE`. -/
def indVooNumeroAt (s : List Char) : Bool :=
  match dropLitCI ("Voo".toList) s with
  | none => false
  | some r =>
    match r.dropWhile isWs with
    | '(' :: r2 =>
      match dropLitCI ("Numero".toList) r2 with
      | some (')' :: _) => true
      | _ => false
    | _ => false

/-- Anchor 8 matcher at one position: `Stp\s*Nbr` under `re.IGNORECASE`. -/
def indStpNbrAt (s : List Char) : Bool :=
  match dropLitCI ("Stp".toList) s with
  | none => false
  | some r => (dropLitCI ("Nbr".toList) (r.dropWhile isWs)).isSome

/-- `re.search` of a plain literal under `re.IGNORECASE`. -/
def searchLitCI (pat t : List Char) : Bool :=
  reSearch (fun s => (dropLitCI pat s).isSome) t

/-- The eight `sabre_indicators` of `detect_sabre_pattern`
(sabre_screen.py 102-111), each applied to the recognized text via
`re.search(..., re.IGNORECASE)`. -/
def sabreIndicators (t : List Char) : List Bool :=
  [reSearch indReservaAt t,
   searchLitCI ("Nomes".toList) t,
   reSearch indVooCIAAt t,
   reSearch indVooNumeroAt t,
   searchLitCI ("Cls".toList) t,
   searchLitCI ("De-Para".toList) t,
   searchLitCI ("Data".toList) t,
   reSearch indStpNbrAt t]

/-- `found_indicators` count of `detect_sabre_pattern` (sabre_screen.py 118-121). -/
def found_indicators (t : List Char) : Nat := (sabreIndicators t).count true

/-- `SabreScreen.detect_sabre_pattern` (sabre_screen.py 87-129): with no loaded
capture it returns `False`; otherwise it matches the eight anchors against the
recognized text and succeeds iff at least 5 are found.  (The grayscale
conversion of the capture is computed but unused by the decision.) -/
def detect_sabre_pattern (raw_image_loaded : Bool) (extracted_text : List Char) :
    Bool :=
  raw_image_loaded && decide (5 ≤ found_indicators extracted_text)

/-- The field set produced by `SabreScreen.parse_fields`
(sabre_screen.py 147-220): each canonical key is extracted at most once
(first regex match wins) or absent.  The claims below quantify over every
possible extracted field set, so the parse output is the model's input here;
only the field values matter to the downstream logic (the constant confidences
and the placeholder positions are not read by it). -/
structure ExtractedFields where
  pnr : Option (List Char) := none
  passenger_name : Option (List Char) := none
  carrier : Option (List Char) := none
  flight_num : Option (List Char) := none
  classe : Option (List Char) := none
  trecho : Option (List Char) := none
  data_voo : Option (List Char) := none
  status : Option (List Char) := none
  ticket_number : Option (List Char) := none
  auth_code : Option (List Char) := none
deriving DecidableEq

/-- `SabreScreen.validate_integrity` (sabre_screen.py 222-254): run the
business-rule checks over whichever fields were extracted, in source order. -/
def validate_integrity (f : ExtractedFields) : List ValidationResult :=
  (match f.pnr with
   | some v => [RulesEngine.validate_pnr_format v]
   | none => []) ++
  (match f.status with
   | some v => [RulesEngine.validate_flight_status v]
   | none => []) ++
  (match f.carrier with
   | some v => [RulesEngine.validate_carrier_code v]
   | none => []) ++
  (match f.classe, f.auth_code with
   | some c, some a => [RulesEngine.validate_estouro_classe c a]
   | _, _ => [])

end SabreScreen

namespace LatamForm

/-- The insertion order of the `LatamForm.field_mappings` dict
(latam_form.py 46-103). -/
def fieldOrder : List (List Char) :=
  ["pnr".toList, "cidade".toList, "pais".toList, "departamento".toList,
   "razao".toList, "autorizador".toList, "num_segmento".toList,
   "carrier".toList, "vuelo".toList, "classe".toList, "data_voo".toList,
   "segmento".toList, "pax".toList, "cto_des".toList]

/-- The `for field_name, field_config in self.field_mappings.items()` loop of
`LatamForm.fill_all` (latam_form.py 186-196): each mapping field present in
`extracted_data` is filled through `_fill_field`, in mapping order, with no
early abort (`_fill_field` catches its own exceptions and returns a failed
`ValidationResult`).  `_fill_field`'s browser outcome is the external fill
collaborator, passed as `fill_field`; the second component counts its
invocations.  The 200ms pacing sleep has no effect on the outcome values. -/
def fillLoop (fill_field : List Char → List Char → ValidationResult)
    (extracted_data : List (List Char × List Char)) :
    List (List Char) → List ValidationResult × Nat
  | [] => ([], 0)
  | fname :: rest =>
    match extracted_data.lookup fname with
    | some v =>
      let r := fillLoop fill_field extracted_data rest
      (fill_field fname v :: r.1, r.2 + 1)
    | none => fillLoop fill_field extracted_data rest

/-- `LatamForm.fill_all` (latam_form.py 171-200). -/
def fill_all (is_form_loaded : Bool)
    (fill_field : List Char → List Char → ValidationResult)
    (extracted_data : List (List Char × List Char)) :
    List ValidationResult × Nat :=
  if ¬ is_form_loaded then
    ([{ is_valid := false
        error_message := some ("Formulário não carregado".toList)
        suggested_action := some ("Focar no formulário Latam".toList) }], 0)
  else fillLoop fill_field extracted_data fieldOrder

end LatamForm

namespace FormFiller

/-- `FillResult` dataclass of `form_filler.py` (lines 18-25).  The wall-clock
`processing_time` field is not modelled; no claim reads it. -/
structure FillResult where
  success : Bool
  field_results : List ValidationResult
  submission_result : Option ValidationResult := none
  error_message : Option (List Char) := none
deriving DecidableEq

/-- One optional entry of the `_map_sabre_to_latam` output dict. -/
def optEntry (k : List Char) (v : Option (List Char)) :
    List (List Char × List Char) :=
  match v with
  | some x => [(k, x)]
  | none => []

/-- `FormFiller._map_sabre_to_latam` (form_filler.py 154-190): rename the
extracted sabre fields that have a Latam target (in the dict's insertion
order), then append the five fixed administrative defaults. -/
def _map_sabre_to_latam (f : SabreScreen.ExtractedFields) :
    List (List Char × List Char) :=
  optEntry ("pnr".toList) f.pnr ++
  optEntry ("carrier".toList) f.carrier ++
  optEntry ("vuelo".toList) f.flight_num ++
  optEntry ("classe".toList) f.classe ++
  optEntry ("data_voo".toList) f.data_voo ++
  optEntry ("segmento".toList) f.trecho ++
  optEntry ("num_segmento".toList) f.status ++
  optEntry ("pax".toList) f.passenger_name ++
  [("cidade".toList, "SCL".toList),
   ("departamento".toList, "Departamento Técnico".toList),
   ("razao".toList, "PIC - Upgrade".toList),
   ("autorizador".toList, "Supervisor Autorizado".toList),
   ("cto_des".toList, "UPGRADE".toList)]

/-- `FormFiller.process_complete_workflow` (form_filler.py 60-152), one run of
the workflow state machine.  External inputs are explicit: whether the OCR
step produced a capture image and which text, the field set parsed from the
text, whether the Latam form is loaded, the per-field outcome of the external
fill collaborator, and the outcome of the external submit collaborator.  The
returned `Nat` counts the `_fill_field` invocations of the run (0 whenever
`LatamForm.fill_all` is never reached). -/
def process_complete_workflow
    (raw_image_loaded : Bool) (extracted_text : List Char)
    (fields : SabreScreen.ExtractedFields) (is_form_loaded : Bool)
    (fill_field : List Char → List Char → ValidationResult)
    (submission_result : ValidationResult) : FillResult × Nat :=
  if extracted_text.isEmpty then
    ({ success := false, field_results := []
       error_message := some ("No text extracted from image".toList) }, 0)
  else if ¬ SabreScreen.detect_sabre_pattern raw_image_loaded extracted_text then
    ({ success := false, field_results := []
       error_message := some ("Invalid Sabre screen format detected".toList) }, 0)
  else
    let validation_results := SabreScreen.validate_integrity fields
    let critical_failures := validation_results.filter (fun r => !r.is_valid)
    if ¬ critical_failures.isEmpty then
      ({ success := false
         field_results := validation_results
         error_message := some (("Critical validation failures: ".toList) ++
           (toString critical_failures.length).toList) }, 0)
    else if ¬ is_form_loaded then
      ({ success := false
         field_results := validation_results
         error_message := some ("Latam form not available or not loaded".toList) }, 0)
    else
      let field_mapping := _map_sabre_to_latam fields
      let fr := LatamForm.fill_all is_form_loaded fill_field field_mapping
      let total_success := fr.1.all (fun r => r.is_valid) &&
        submission_result.is_valid
      ({ success := total_success
         field_results := fr.1
         submission_result := some submission_result }, fr.2)

end FormFiller

/-- Latam field names of the mapped dict that `fill_all` will actually fill:
the mapping-order fields present in the `_map_sabre_to_latam` output.  Its
length is the `N` of the fail-soft property. -/
def mappedFieldNames (fields : SabreScreen.ExtractedFields) : List (List Char) :=
  LatamForm.fieldOrder.filter
    (fun n => ((FormFiller._map_sabre_to_latam fields).lookup n).isSome)

/-! ### Concrete fixtures used by witnesses -/

/-- A recognized text containing all eight Sabre anchors. -/
def sampleSabreText : List Char :=
  "Reserva - ABC123 Nomes Voo (CIA) Voo (Numero) Cls De-Para Data Stp Nbr".toList

/-- An extraction whose class is ineligible (class `F`): its only validation
outcome fails. -/
def fieldsIneligible : SabreScreen.ExtractedFields :=
  { classe := some ("F".toList), auth_code := some ("PIC_S23".toList) }

/-- An extraction on which every validation check passes. -/
def fieldsEligible : SabreScreen.ExtractedFields :=
  { pnr := some ("ABC123".toList)
    passenger_name := some ("JOAO SILVA".toList)
    carrier := some ("LA".toList)
    flight_num := some ("1234".toList)
    classe := some ("Y".toList)
    trecho := some ("GRU-SCL".toList)
    data_voo := some ("13MAR".toList)
    status := some ("HK".toList)
    auth_code := some ("PIC_S23".toList) }

/-- A fill collaborator that fails exactly the `pnr` field. -/
def fillFailPnr : List Char → List Char → ValidationResult :=
  fun n _ => if n = "pnr".toList then { is_valid := false } else { is_valid := true }

/-- A fill collaborator that always succeeds. -/
def fillAlwaysOk : List Char → List Char → ValidationResult :=
  fun _ _ => { is_valid := true }

/-! ### Shared lemmas -/

theorem isUpperAlnum_iff (c : Char) :
    isUpperAlnum c = true ↔
      (65 ≤ c.toNat ∧ c.toNat ≤ 90) ∨ (48 ≤ c.toNat ∧ c.toNat ≤ 57) := by
  simp [isUpperAlnum, isUpperAscii, isDigitAscii]

theorem pnr_valid_iff (pnr : List Char) :
    (RulesEngine.validate_pnr_format pnr).is_valid = true ↔
      pnr.length = 6 ∧
        ∀ c ∈ pnr, (65 ≤ c.toNat ∧ c.toNat ≤ 90) ∨ (48 ≤ c.toNat ∧ c.toNat ≤ 57) := by
  unfold RulesEngine.validate_pnr_format
  split_ifs with h1 h2
  · simp only [List.isEmpty_iff, Bool.or_eq_true, decide_eq_true_eq] at h1
    simp only [Bool.false_eq_true, false_iff, not_and]
    intro hlen
    exfalso
    rcases h1 with h | h
    · rw [h] at hlen; simp at hlen
    · exact h hlen
  · simp only [List.isEmpty_iff, Bool.or_eq_true, decide_eq_true_eq, not_or,
      Decidable.not_not] at h1
    refine iff_of_true (by trivial) ⟨h1.2, fun c hc => ?_⟩
    exact (isUpperAlnum_iff c).mp (List.all_eq_true.mp h2 c hc)
  · simp only [Bool.false_eq_true, false_iff, not_and]
    intro _ hall
    exact h2 (List.all_eq_true.mpr fun c hc => (isUpperAlnum_iff c).mpr (hall c hc))

theorem carrier_valid_iff (s : List Char) :
    (RulesEngine.validate_carrier_code s).is_valid = true ↔
      pyUpper s ∈ ["LA".toList, "LP".toList, "4C".toList, "JJ".toList] := by
  unfold RulesEngine.validate_carrier_code
  split_ifs with h
  · exact iff_of_true rfl (List.elem_iff.mp h)
  · exact iff_of_false (by simp) (fun hmem => h (List.elem_iff.mpr hmem))

theorem status_valid_iff (s : List Char) :
    (RulesEngine.validate_flight_status s).is_valid = true ↔
      pyUpper s ∈ ["HK".toList, "SA".toList] := by
  unfold RulesEngine.validate_flight_status
  split_ifs with h
  · exact iff_of_true rfl (List.elem_iff.mp h)
  · exact iff_of_false (by simp) (fun hmem => h (List.elem_iff.mpr hmem))

theorem estouro_valid_iff (classe auth : List Char) :
    (RulesEngine.validate_estouro_classe classe auth).is_valid = true ↔
      (pyUpper classe ∈ ["Q".toList, "S".toList, "Y".toList] ∧
       pyUpper auth ∈ ["PIC_S23".toList, "PIC_S24".toList, "PIC_S25".toList]) := by
  unfold RulesEngine.validate_estouro_classe RulesEngine._validate_pic_authorization
  dsimp only
  split_ifs with h1 h2
  · exact iff_of_true rfl ⟨List.elem_iff.mp h1, List.elem_iff.mp h2⟩
  · exact iff_of_false (by simp) (fun hc => h2 (List.elem_iff.mpr hc.2))
  · exact iff_of_false (by simp) (fun hc => h1 (List.elem_iff.mpr hc.1))

theorem estouro_class_fail (classe auth : List Char)
    (h : pyUpper classe ∉ ["Q".toList, "S".toList, "Y".toList]) :
    RulesEngine.validate_estouro_classe classe auth =
      { is_valid := false
        error_message := some ("Classe ".toList ++ pyUpper classe ++
          " não é elegível para estouro de classe".toList)
        suggested_action := some ("Verificar classe original da reserva".toList) } := by
  unfold RulesEngine.validate_estouro_classe
  dsimp only
  rw [if_pos (fun hc => h (List.elem_iff.mp hc))]

theorem estouro_auth_fail (classe auth : List Char)
    (hc : pyUpper classe ∈ ["Q".toList, "S".toList, "Y".toList])
    (ha : pyUpper auth ∉ ["PIC_S23".toList, "PIC_S24".toList, "PIC_S25".toList]) :
    RulesEngine.validate_estouro_classe classe auth =
      { is_valid := false
        error_message := some ("Código de autorização ".toList ++ pyUpper auth ++
          " não permite estouro de classe".toList)
        suggested_action := some ("Verificar autorização PIC no Sabre".toList) } := by
  unfold RulesEngine.validate_estouro_classe RulesEngine._validate_pic_authorization
  dsimp only
  rw [if_neg (fun hx => hx (List.elem_iff.mpr hc)),
    if_pos (fun hx => ha (List.elem_iff.mp hx))]

theorem pySplitOn_of_not_contains (sep : Char) :
    ∀ s : List Char, s.contains sep = false → pySplitOn sep s = [s] := by
  intro s
  induction s with
  | nil => intro _; rfl
  | cons c rest ih =>
    intro h
    simp only [List.contains_cons, Bool.or_eq_false_iff, beq_eq_false_iff_ne] at h
    have hcs : ¬ c = sep := fun hcs => h.1 hcs.symm
    simp only [pySplitOn, if_neg hcs, ih h.2]

theorem inverted_names_of_split (old_name new_name : List Char) (sep : Char)
    (hsep : sep = ' ' ∨ sep = '/')
    (hlen : (pySplitOn sep old_name).length = (pySplitOn sep new_name).length)
    (htwo : 1 < (pySplitOn sep old_name).length)
    (hrev : pySplitOn sep old_name = (pySplitOn sep new_name).reverse) :
    RulesEngine._is_inverted_names old_name new_name = true := by
  have hco : old_name.contains sep = true := by
    rcases Bool.eq_false_or_eq_true (old_name.contains sep) with h | h
    · exact h
    · rw [pySplitOn_of_not_contains sep old_name h] at htwo
      simp at htwo
  have hcn : new_name.contains sep = true := by
    rcases Bool.eq_false_or_eq_true (new_name.contains sep) with h | h
    · exact h
    · rw [pySplitOn_of_not_contains sep new_name h] at hlen
      rw [hlen] at htwo
      simp at htwo
  have hcheck : RulesEngine.invertedSepCheck sep old_name new_name = true := by
    unfold RulesEngine.invertedSepCheck
    simp only [hco, hcn]
    simp [hlen, htwo, hrev]
    omega
  unfold RulesEngine._is_inverted_names
  rcases hsep with h | h <;> rw [h] at hcheck <;> simp [hcheck]

theorem name_correction_valid_of_inverted (old_name new_name : List Char)
    (h : RulesEngine._is_inverted_names (RulesEngine._normalize_name old_name)
        (RulesEngine._normalize_name new_name) = true) :
    (RulesEngine.validate_name_correction old_name new_name).is_valid = true := by
  unfold RulesEngine.validate_name_correction
  dsimp only
  split_ifs <;> simp_all

theorem fillLoop_eq (fill_field : List Char → List Char → ValidationResult)
    (data : List (List Char × List Char)) :
    ∀ names : List (List Char),
      LatamForm.fillLoop fill_field data names =
        ((names.filter (fun n => (data.lookup n).isSome)).map
            (fun n => fill_field n ((data.lookup n).getD [])),
          (names.filter (fun n => (data.lookup n).isSome)).length) := by
  intro names
  induction names with
  | nil => rfl
  | cons f rest ih =>
    cases h : data.lookup f with
    | none => simp [LatamForm.fillLoop, h, List.filter_cons, ih]
    | some v => simp [LatamForm.fillLoop, h, List.filter_cons, ih]

/-! ### Claims -/

set_option maxRecDepth 1000000

/-- C3: with a capture loaded, `detect_sabre_pattern` counts how many of the 8
fixed anchor patterns match the recognized text (case-insensitively, via the
embedded `re.IGNORECASE` matchers) and returns true iff at least 5 of the 8
match; in particular, for every text matching 4 or fewer anchors it returns
false. -/
theorem claim3_detect_format_majority (t : List Char) :
    (SabreScreen.detect_sabre_pattern true t = true ↔
      5 ≤ SabreScreen.found_indicators t) ∧
    (SabreScreen.found_indicators t ≤ 4 →
      SabreScreen.detect_sabre_pattern true t = false) := by
  unfold SabreScreen.detect_sabre_pattern
  constructor
  · simp
  · intro h
    simp only [Bool.true_and, decide_eq_false_iff_not]
    omega

/-- C3 witness: a text containing only the `Data` anchor (1 of 8) is rejected. -/
theorem claim3_witness :
    SabreScreen.found_indicators ("Data".toList) ≤ 4 ∧
      SabreScreen.detect_sabre_pattern true ("Data".toList) = false :=
  ⟨by decide, (claim3_detect_format_majority ("Data".toList)).2 (by decide)⟩

/-- C4: `validate_pnr_format` passes exactly the strings of six characters
each an uppercase letter `A`-`Z` (codepoints 65-90) or digit `0`-`9`
(codepoints 48-57); every other length and every lowercase or symbol
character fails. -/
theorem claim4_pnr_format (pnr : List Char) :
    (RulesEngine.validate_pnr_format pnr).is_valid = true ↔
      pnr.length = 6 ∧
        ∀ c ∈ pnr, (65 ≤ c.toNat ∧ c.toNat ≤ 90) ∨ (48 ≤ c.toNat ∧ c.toNat ≤ 57) :=
  pnr_valid_iff pnr

/-- C4 witness: `AB12C3` passes, and the passing verdict is produced by the
theorem's right-to-left direction at that input. -/
theorem claim4_witness :
    (RulesEngine.validate_pnr_format ("AB12C3".toList)).is_valid = true :=
  (claim4_pnr_format ("AB12C3".toList)).mpr (by decide)

/-- C5: `validate_estouro_classe` passes iff the (upper-cased) class is in
`Q/S/Y` and the (upper-cased) authorization code is in
`PIC_S23/PIC_S24/PIC_S25`; a class outside its allow-list yields the
class-ineligible message and remediation, and an allowed class with a bad
authorization code yields the distinct authorization-ineligible message and
remediation. -/
theorem claim5_estouro_classe (classe auth : List Char) :
    ((RulesEngine.validate_estouro_classe classe auth).is_valid = true ↔
      (pyUpper classe ∈ ["Q".toList, "S".toList, "Y".toList] ∧
       pyUpper auth ∈ ["PIC_S23".toList, "PIC_S24".toList, "PIC_S25".toList])) ∧
    (pyUpper classe ∉ ["Q".toList, "S".toList, "Y".toList] →
      RulesEngine.validate_estouro_classe classe auth =
        { is_valid := false
          error_message := some ("Classe ".toList ++ pyUpper classe ++
            " não é elegível para estouro de classe".toList)
          suggested_action := some ("Verificar classe original da reserva".toList) }) ∧
    (pyUpper classe ∈ ["Q".toList, "S".toList, "Y".toList] →
      pyUpper auth ∉ ["PIC_S23".toList, "PIC_S24".toList, "PIC_S25".toList] →
      RulesEngine.validate_estouro_classe classe auth =
        { is_valid := false
          error_message := some ("Código de autorização ".toList ++ pyUpper auth ++
            " não permite estouro de classe".toList)
          suggested_action := some ("Verificar autorização PIC no Sabre".toList) }) :=
  ⟨estouro_valid_iff classe auth,
   estouro_class_fail classe auth,
   estouro_auth_fail classe auth⟩

/-- C5 witness: `(Y, PIC_S23)` passes; `(F, PIC_S23)` fails with the
class-ineligible remediation; `(Y, BAD)` fails with the
authorization-ineligible remediation. -/
theorem claim5_witness :
    (RulesEngine.validate_estouro_classe ("Y".toList) ("PIC_S23".toList)).is_valid
        = true ∧
    (RulesEngine.validate_estouro_classe ("F".toList) ("PIC_S23".toList)).suggested_action
        = some ("Verificar classe original da reserva".toList) ∧
    (RulesEngine.validate_estouro_classe ("Y".toList) ("BAD".toList)).suggested_action
        = some ("Verificar autorização PIC no Sabre".toList) :=
  ⟨(claim5_estouro_classe ("Y".toList) ("PIC_S23".toList)).1.mpr (by decide),
   by rw [(claim5_estouro_classe ("F".toList) ("PIC_S23".toList)).2.1 (by decide)],
   by rw [(claim5_estouro_classe ("Y".toList) ("BAD".toList)).2.2 (by decide) (by decide)]⟩

/-- C6: the date transform maps `13MAR` to `13/03/<currentYear>` for every
clock year, and returns a failure verdict (never an exception: the embedded
function is total) for every input whose length is not 5, whose first two
characters are not digits, or whose upper-cased month abbreviation is not in
the fixed 12-entry table. -/
theorem claim6_date_transform :
    (∀ year : Nat,
      RulesEngine.validate_date_format year ("13MAR".toList) =
        (true, "13/03/".toList ++ (toString year).toList)) ∧
    (∀ (year : Nat) (s : List Char),
      (s.length ≠ 5 ∨ ¬ RulesEngine.pyIsdigit (s.take 2) = true ∨
        RulesEngine.month_map.lookup (pyUpper (s.drop 2)) = none) →
      (RulesEngine.validate_date_format year s).1 = false) := by
  constructor
  · intro year
    rfl
  · intro year s h
    unfold RulesEngine.validate_date_format
    split_ifs with hg
    · rfl
    · simp only [Bool.or_eq_true, decide_eq_true_eq, Bool.not_eq_eq_eq_not,
        Bool.not_true, not_or] at hg
      rcases h with h | h | h
      · exact absurd h (by simpa using hg.1)
      · exact absurd hg.2 (by simpa using h)
      · dsimp only
        rw [h]

/-- C6 witness: `13FOO` is rejected in year 2026 via the theorem's failure
direction (unknown month abbreviation). -/
theorem claim6_witness :
    (RulesEngine.validate_date_format 2026 ("13FOO".toList)).1 = false :=
  claim6_date_transform.2 2026 ("13FOO".toList) (by decide)

/-- C7: for every pair of names whose normalizations split on a separator
(space or slash, as in the source's separator loop) into equal token counts of
at least 2 with the new sequence the exact reverse of the old, the
name-correction classifier approves; in particular `LUISA/GALVEZ` →
`GALVEZ/LUISA` is approved, with the normalized names distinct, the
orthographic heuristic (SequenceMatcher ratio 0.5, not above 0.70) not firing,
and the token-inversion heuristic firing. -/
theorem claim7_token_inversion :
    (∀ (old_name new_name : List Char) (sep : Char), (sep = ' ' ∨ sep = '/') →
      (pySplitOn sep (RulesEngine._normalize_name old_name)).length =
        (pySplitOn sep (RulesEngine._normalize_name new_name)).length →
      1 < (pySplitOn sep (RulesEngine._normalize_name old_name)).length →
      pySplitOn sep (RulesEngine._normalize_name old_name) =
        (pySplitOn sep (RulesEngine._normalize_name new_name)).reverse →
      (RulesEngine.validate_name_correction old_name new_name).is_valid = true) ∧
    ((RulesEngine.validate_name_correction ("LUISA/GALVEZ".toList)
        ("GALVEZ/LUISA".toList)).is_valid = true ∧
     RulesEngine._normalize_name ("LUISA/GALVEZ".toList) ≠
        RulesEngine._normalize_name ("GALVEZ/LUISA".toList) ∧
     RulesEngine._is_orthographic_correction
        (RulesEngine._normalize_name ("LUISA/GALVEZ".toList))
        (RulesEngine._normalize_name ("GALVEZ/LUISA".toList)) = false ∧
     RulesEngine._is_inverted_names
        (RulesEngine._normalize_name ("LUISA/GALVEZ".toList))
        (RulesEngine._normalize_name ("GALVEZ/LUISA".toList)) = true) := by
  constructor
  · intro old_name new_name sep hsep hlen htwo hrev
    exact name_correction_valid_of_inverted old_name new_name
      (inverted_names_of_split _ _ sep hsep hlen htwo hrev)
  · exact ⟨by decide, by decide, by decide, by decide⟩

/-- C7 witness: `ANA MARIA` → `MARIA ANA` (space-separated inversion of two
tokens) is approved via the theorem's universal part. -/
theorem claim7_witness :
    (RulesEngine.validate_name_correction ("ANA MARIA".toList)
      ("MARIA ANA".toList)).is_valid = true :=
  claim7_token_inversion.1 ("ANA MARIA".toList) ("MARIA ANA".toList) ' '
    (Or.inl rfl) (by decide) (by decide) (by decide)

/-- C8 counterexample: `validate_date_format` is not a function of its string
argument alone — the same call observed under clock year 2025 and under clock
year 2026 returns different results, because the formatted date embeds
`datetime.now().year`. -/
theorem claim8_counterexample :
    RulesEngine.validate_date_format 2025 ("13MAR".toList) ≠
      RulesEngine.validate_date_format 2026 ("13MAR".toList) := by
  decide

/-- C8 (amended): the validation checks and the classifier are deterministic
functions of their explicit arguments; the date transform alone additionally
reads the ambient clock year, and its pass/fail verdict is independent of
that year. -/
theorem claim8_amended_verdict_clock_independent (y₁ y₂ : Nat) (s : List Char) :
    (RulesEngine.validate_date_format y₁ s).1 =
      (RulesEngine.validate_date_format y₂ s).1 := by
  unfold RulesEngine.validate_date_format
  split_ifs
  · rfl
  · dsimp only
    cases RulesEngine.month_map.lookup (pyUpper (s.drop 2)) <;> rfl

/-- C9: the carrier, flight-status and class/authorization checks upper-case
their input before the allow-list membership test — so every lowercase variant
of an allowed value (`la`, `hk`, `y` with a valid code) passes — while
`validate_pnr_format` performs no normalization, so every PNR containing a
lowercase letter fails. -/
theorem claim9_case_normalization :
    (∀ s, (RulesEngine.validate_carrier_code s).is_valid = true ↔
      pyUpper s ∈ ["LA".toList, "LP".toList, "4C".toList, "JJ".toList]) ∧
    (RulesEngine.validate_carrier_code ("la".toList)).is_valid = true ∧
    (∀ s, (RulesEngine.validate_flight_status s).is_valid = true ↔
      pyUpper s ∈ ["HK".toList, "SA".toList]) ∧
    (RulesEngine.validate_flight_status ("hk".toList)).is_valid = true ∧
    (RulesEngine.validate_estouro_classe ("y".toList) ("PIC_S23".toList)).is_valid
        = true ∧
    (∀ (s : List Char) (c : Char), c ∈ s → 97 ≤ c.toNat → c.toNat ≤ 122 →
      (RulesEngine.validate_pnr_format s).is_valid = false) := by
  refine ⟨carrier_valid_iff, ?_, status_valid_iff, ?_, ?_, ?_⟩
  · exact (carrier_valid_iff _).mpr (by decide)
  · exact (status_valid_iff _).mpr (by decide)
  · exact (estouro_valid_iff _ _).mpr (by decide)
  · intro s c hc h97 h122
    rcases Bool.eq_false_or_eq_true ((RulesEngine.validate_pnr_format s).is_valid)
      with h | h
    · exfalso
      rcases (pnr_valid_iff s).mp h with ⟨-, hall⟩
      rcases hall c hc with ⟨h1, h2⟩ | ⟨h1, h2⟩ <;> omega
    · exact h

/-- C9 witness: `aB12C3` contains the lowercase letter `a`, hence fails, via
the theorem's final clause. -/
theorem claim9_witness :
    (RulesEngine.validate_pnr_format ("aB12C3".toList)).is_valid = false :=
  claim9_case_normalization.2.2.2.2.2 ("aB12C3".toList) 'a' (by decide)
    (by decide) (by decide)

/-- C10: `_normalize_name` removes each honorific/suffix token as a substring
at every occurrence, not only as a standalone token: the distinct surnames
`HAMSUN` (which embeds `MS`) and `HAUN` normalize to the same string and the
classifier approves the pair as a trivial match. -/
theorem claim10_substring_title_stripping :
    RulesEngine._normalize_name ("HAMSUN".toList) =
      RulesEngine._normalize_name ("HAUN".toList) ∧
    ("HAMSUN".toList : List Char) ≠ ("HAUN".toList : List Char) ∧
    (RulesEngine.validate_name_correction ("HAMSUN".toList)
      ("HAUN".toList)).is_valid = true :=
  ⟨by decide, by decide, by decide⟩

/-- C1: every workflow run that reaches validation with at least one failed
validation outcome terminates in the failed-validation branch, returning the
full list of validation outcomes, with zero invocations of the fill
collaborator (`fill_all`/`_fill_field` are never reached). -/
theorem claim1_failed_validation_blocks_fill
    (raw_image_loaded : Bool) (text : List Char)
    (fields : SabreScreen.ExtractedFields) (is_form_loaded : Bool)
    (fill_field : List Char → List Char → ValidationResult)
    (submission : ValidationResult)
    (htext : text ≠ [])
    (hdetect : SabreScreen.detect_sabre_pattern raw_image_loaded text = true)
    (hfail : ∃ r ∈ SabreScreen.validate_integrity fields, r.is_valid = false) :
    FormFiller.process_complete_workflow raw_image_loaded text fields
        is_form_loaded fill_field submission =
      ({ success := false
         field_results := SabreScreen.validate_integrity fields
         error_message := some (("Critical validation failures: ".toList) ++
           (toString ((SabreScreen.validate_integrity fields).filter
              (fun r => !r.is_valid)).length).toList) }, 0) := by
  obtain ⟨r, hr, hrv⟩ := hfail
  have hne : (SabreScreen.validate_integrity fields).filter
      (fun r => !r.is_valid) ≠ [] :=
    List.ne_nil_of_mem (List.mem_filter.mpr ⟨hr, by simp [hrv]⟩)
  unfold FormFiller.process_complete_workflow
  rw [if_neg (by simp [List.isEmpty_iff, htext]), if_neg (by simp [hdetect])]
  dsimp only
  rw [if_pos (by simpa [List.isEmpty_iff] using hne)]

/-- C1 witness: an ineligible-class extraction reaches the failed-validation
branch of a run over a full anchor text, with zero fill calls and a failed
result. -/
theorem claim1_witness :
    (FormFiller.process_complete_workflow true sampleSabreText fieldsIneligible
        true fillAlwaysOk { is_valid := true }).2 = 0 ∧
    (FormFiller.process_complete_workflow true sampleSabreText fieldsIneligible
        true fillAlwaysOk { is_valid := true }).1.success = false := by
  rw [claim1_failed_validation_blocks_fill true sampleSabreText fieldsIneligible
    true fillAlwaysOk { is_valid := true } (by decide) (by decide) (by decide)]
  exact ⟨rfl, rfl⟩

/-- C2: in a run with every validation passing, where the fill collaborator
fails on exactly one of the `N` mapped fields, all `N` fields are still
attempted — exactly `N` `_fill_field` calls and `N` per-field outcomes, with
no early abort — and the run's `FillResult.success` is false. -/
theorem claim2_fail_soft_one_failure
    (raw_image_loaded : Bool) (text : List Char)
    (fields : SabreScreen.ExtractedFields)
    (fill_field : List Char → List Char → ValidationResult)
    (submission : ValidationResult)
    (htext : text ≠ [])
    (hdetect : SabreScreen.detect_sabre_pattern raw_image_loaded text = true)
    (hvalid : ∀ r ∈ SabreScreen.validate_integrity fields, r.is_valid = true)
    (hone : ((mappedFieldNames fields).filter (fun n =>
        !(fill_field n (((FormFiller._map_sabre_to_latam fields).lookup n).getD
          [])).is_valid)).length = 1) :
    (FormFiller.process_complete_workflow raw_image_loaded text fields
        true fill_field submission).2 = (mappedFieldNames fields).length ∧
    (FormFiller.process_complete_workflow raw_image_loaded text fields
        true fill_field submission).1.success = false ∧
    (FormFiller.process_complete_workflow raw_image_loaded text fields
        true fill_field submission).1.field_results.length =
      (mappedFieldNames fields).length := by
  have hcrit : (SabreScreen.validate_integrity fields).filter
      (fun r => !r.is_valid) = [] := by
    rw [List.filter_eq_nil_iff]
    intro r hr
    simp [hvalid r hr]
  have hfa : LatamForm.fill_all true fill_field
      (FormFiller._map_sabre_to_latam fields) =
      ((mappedFieldNames fields).map (fun n => fill_field n
          (((FormFiller._map_sabre_to_latam fields).lookup n).getD [])),
        (mappedFieldNames fields).length) := by
    unfold LatamForm.fill_all
    rw [if_neg (by simp)]
    exact fillLoop_eq fill_field _ _
  have hmain : FormFiller.process_complete_workflow raw_image_loaded text fields
      true fill_field submission =
      ({ success := ((mappedFieldNames fields).map (fun n => fill_field n
            (((FormFiller._map_sabre_to_latam fields).lookup n).getD
              []))).all (fun r => r.is_valid) && submission.is_valid
         field_results := (mappedFieldNames fields).map (fun n => fill_field n
            (((FormFiller._map_sabre_to_latam fields).lookup n).getD []))
         submission_result := some submission },
        (mappedFieldNames fields).length) := by
    unfold FormFiller.process_complete_workflow
    rw [if_neg (by simp [List.isEmpty_iff, htext]), if_neg (by simp [hdetect])]
    dsimp only
    rw [if_neg (by simp [hcrit]), if_neg (by simp), hfa]
  have hex : ∃ n ∈ mappedFieldNames fields,
      (fill_field n (((FormFiller._map_sabre_to_latam fields).lookup n).getD
        [])).is_valid = false := by
    have hne : (mappedFieldNames fields).filter (fun n =>
        !(fill_field n (((FormFiller._map_sabre_to_latam fields).lookup n).getD
          [])).is_valid) ≠ [] := by
      intro hnil
      rw [hnil] at hone
      simp at hone
    obtain ⟨n, hn⟩ := List.exists_mem_of_ne_nil _ hne
    have hmf := List.mem_filter.mp hn
    exact ⟨n, hmf.1, by simpa using hmf.2⟩
  have hall : ((mappedFieldNames fields).map (fun n => fill_field n
      (((FormFiller._map_sabre_to_latam fields).lookup n).getD
        []))).all (fun r => r.is_valid) = false := by
    obtain ⟨n, hn, hv⟩ := hex
    rcases Bool.eq_false_or_eq_true (((mappedFieldNames fields).map
        (fun n => fill_field n (((FormFiller._map_sabre_to_latam
          fields).lookup n).getD []))).all (fun r => r.is_valid)) with h | h
    · exfalso
      have := List.all_eq_true.mp h _ (List.mem_map_of_mem _ hn)
      rw [hv] at this
      cases this
    · exact h
  rw [hmain]
  refine ⟨rfl, ?_, by simp⟩
  simp [hall]

/-- C2 witness: on the all-eligible extraction, a collaborator failing exactly
the `pnr` field still produces 13 fill calls (all 13 mapped fields attempted)
and an unsuccessful result. -/
theorem claim2_witness :
    (FormFiller.process_complete_workflow true sampleSabreText fieldsEligible
        true fillFailPnr { is_valid := true }).2 = 13 ∧
    (FormFiller.process_complete_workflow true sampleSabreText fieldsEligible
        true fillFailPnr { is_valid := true }).1.success = false := by
  have h := claim2_fail_soft_one_failure true sampleSabreText fieldsEligible
    fillFailPnr { is_valid := true } (by decide) (by decide) (by decide)
    (by decide)
  refine ⟨?_, h.2.1⟩
  rw [h.1]
  decide

end Autocepnr
